import Mathlib

/-!
Verification of the socat time-interpolation subsystem.

This file shallowly embeds the interpolation subsystem of the socat
repository: `SourceGenerator` from `socat/generator.py` and
`get_ephem_points` from `socat/core/moving_sources.py`, together with the
fragments of the data model they consume (`socat/database/sources.py`).

Modelling conventions:
- machine floating-point magnitudes are modelled as exact rationals (ℚ);
- astropy units are modelled as symbolic strings attached to magnitudes;
- Python exceptions are modelled by an explicit error type and `Except`;
- the asynchronous database fetch performed by `init_interp` is modelled
  by passing the result of `get_ephem_points` (or the error it raised) as
  an explicit `Except` argument;
- `functools.lru_cache(maxsize=128)` on the method `at_time` is a single
  class-level cache keyed by the bound instance and the argument `t`;
  instance identity is modelled by a natural number `gid`, and the cache
  is an explicit most-recently-used-first association list threaded
  through `at_time` calls.  `at_time` additionally reports whether the
  underlying interpolation function was invoked (the observable that the
  specification's call-counting stub measures).
-/

namespace Socat

/-- An angular quantity: a numeric magnitude with a symbolic unit
(astropy `Angle`-like value, e.g. degrees). -/
structure Angle where
  value : ℚ
  unit : String
  deriving DecidableEq

/-- An ICRS sky coordinate, as used by `astropy.coordinates.ICRS`:
a right ascension and a declination. -/
structure ICRS where
  ra : Angle
  dec : Angle
  deriving DecidableEq

/-- A generic physical quantity (astropy `Quantity`): magnitude plus unit. -/
structure Quantity where
  value : ℚ
  unit : String
  deriving DecidableEq

/-- A solar-system object identity (`SolarSystemObject` in
`socat/database/sources.py`; `SolarSystemSource` in the flat
`socat/database.py` that `generator.py` names). Only `sso_id` is used by
the code under verification. -/
structure SolarSystemObject where
  sso_id : ℤ
  MPC_id : Option ℤ
  name : String
  deriving DecidableEq

/-- A fixed extragalactic source (`ExtragalacticSource` in
`socat/database.py`): a position and an optional flux. -/
structure ExtragalacticSource where
  id : Option ℤ
  position : ICRS
  flux : Option Quantity
  name : Option String
  deriving DecidableEq

/-- An ephemeris sample for a moving source
(`RegisteredMovingSource` in `socat/database/sources.py`): a time plus a
position and an optional flux. -/
structure RegisteredMovingSource where
  ephem_id : ℤ
  sso_id : ℤ
  MPC_id : Option ℤ
  name : String
  time : ℤ
  position : ICRS
  flux : Option Quantity
  deriving DecidableEq

/-- A row of the `moving_sources` table
(`RegisteredMovingSourceTable` in `socat/database/sources.py`). -/
structure RegisteredMovingSourceTable where
  ephem_id : ℤ
  sso_id : ℤ
  MPC_id : Option ℤ
  name : String
  time : ℤ
  ra_deg : ℚ
  dec_deg : ℚ
  flux_mJy : Option ℚ
  deriving DecidableEq

/-- The `to_model` method of `RegisteredMovingSourceTable`: re-wraps the
stored raw columns with degree and milli-Jansky units. -/
def RegisteredMovingSourceTable.to_model (r : RegisteredMovingSourceTable) :
    RegisteredMovingSource :=
  { ephem_id := r.ephem_id
    sso_id := r.sso_id
    MPC_id := r.MPC_id
    name := r.name
    time := r.time
    position := ⟨⟨r.ra_deg, "deg"⟩, ⟨r.dec_deg, "deg"⟩⟩
    flux := r.flux_mJy.map (fun f => ⟨f, "mJy"⟩) }

/-- The `get_ephem_points` function of `socat/core/moving_sources.py`.
The SQL query selects the rows of the `moving_sources` table satisfying
`t_min <= time`, `time <= t_max` and `source.sso_id == sso_id`, and maps
`to_model` over them.  The query carries no ORDER BY clause, so the rows
come back in the store's own order; the model keeps the table's order. -/
def get_ephem_points (table : List RegisteredMovingSourceTable)
    (source : SolarSystemObject) (t_min t_max : ℤ) :
    List RegisteredMovingSource :=
  (table.filter fun r =>
    decide (t_min ≤ r.time) && decide (r.time ≤ t_max)
      && decide (source.sso_id = r.sso_id)).map
    RegisteredMovingSourceTable.to_model

/-- Python exceptions raised by the embedded code, tagged by class. -/
inductive PyError where
  | runtimeError (msg : String)
  | valueError (msg : String)
  | nameError (msg : String)
  | attributeError (msg : String)
  deriving DecidableEq

/-- One knot of the degree-1 spline: a sample time together with the
three raw magnitudes (ra, dec, flux) stripped of their units.  This is
one row of the `x` and `y` arrays built in `init_interp`. -/
structure Knot where
  time : ℤ
  ra : ℚ
  dec : ℚ
  flux : ℚ
  deriving DecidableEq

/-- Linear interpolation between two knots evaluated at integer time `t`
(the two bracketing samples rule of a degree-1 B-spline). -/
def lerpKnots (p q : Knot) (t : ℤ) : ℚ × ℚ × ℚ :=
  let s : ℚ := ((t : ℚ) - (p.time : ℚ)) / ((q.time : ℚ) - (p.time : ℚ))
  (p.ra + s * (q.ra - p.ra), p.dec + s * (q.dec - p.dec),
    p.flux + s * (q.flux - p.flux))

/-- Evaluation of the degree-1 spline returned by
`scipy.interpolate.make_interp_spline(x, y, k=1)`: piecewise-linear
interpolation on the segment whose right knot is the first knot with
time at least `t`, extrapolating with the first (last) segment to the
left (right) of the knot span.  The empty and singleton cases are
unreachable through `make_interp_spline`, which rejects such inputs. -/
def evalLinear : List Knot → ℤ → ℚ × ℚ × ℚ
  | [], _ => (0, 0, 0)
  | [k], _ => (k.ra, k.dec, k.flux)
  | p :: q :: rest, t =>
      if t ≤ q.time ∨ rest = [] then lerpKnots p q t
      else evalLinear (q :: rest) t

/-- The interpolation function stored in `self.interp`: either the
constant lambda installed for a fixed source, or the degree-1 spline
built for a moving source. -/
inductive Interp where
  | const (ra dec flux : ℚ)
  | linear (knots : List Knot)
  deriving DecidableEq

/-- Evaluate `self.interp` at a time. -/
def Interp.eval : Interp → ℤ → ℚ × ℚ × ℚ
  | .const r d f, _ => (r, d, f)
  | .linear ks, t => evalLinear ks t

/-- The `scipy.interpolate.make_interp_spline(x, y, k=1)` constructor:
it rejects fewer than two points, and rejects an `x` array that is not
strictly increasing, in both cases with an internal scipy `ValueError`;
otherwise it returns the piecewise-linear interpolant through the
points. -/
def make_interp_spline (ks : List Knot) : Except PyError Interp :=
  if ks.length < 2 then
    .error (.valueError "scipy: x array must contain at least 2 points for a spline of degree k=1")
  else if List.Pairwise (fun a b : Knot => a.time < b.time) ks then
    .ok (.linear ks)
  else .error (.valueError "Expect x to be a 1-D sorted array_like.")

/-- The raw flux magnitude of an ephemeris sample, 0 when absent (the
absent case is unreachable whenever `buildKnots` succeeded). -/
def fluxVal (e : RegisteredMovingSource) : ℚ :=
  (e.flux.map Quantity.value).getD 0

/-- The knot that the `init_interp` loop builds from one ephemeris
sample: its time and the unit-stripped ra/dec/flux magnitudes. -/
def knotOf (e : RegisteredMovingSource) : Knot :=
  ⟨e.time, e.position.ra.value, e.position.dec.value, fluxVal e⟩

/-- The loop in `init_interp` that fills the `x` and `y` arrays from the
fetched ephemeris samples.  Reading `ephem.flux.value` on a sample whose
flux is `None` raises an `AttributeError`, exactly as in Python. -/
def buildKnots : List RegisteredMovingSource → Except PyError (List Knot)
  | [] => .ok []
  | e :: rest =>
      match e.flux with
      | none => .error (.attributeError "NoneType object has no attribute value")
      | some _ => (buildKnots rest).map (fun ks => knotOf e :: ks)

/-- The `source` attribute of a `SourceGenerator`: the Python annotation
`ExtragalacticSource | SolarSystemSource` as a sum type.  The moving
identity carries the fields of the solar-system object consumed by
`get_ephem_points`. -/
inductive GenSource where
  | extragalactic (s : ExtragalacticSource)
  | solarSystem (s : SolarSystemObject)
  deriving DecidableEq

/-- The state of a `SourceGenerator` instance: the constructor
arguments, plus the attributes assigned by `init_interp` (`interp`,
`ra_unit`, `dec_unit`, `flux_unit`), each `none` while unassigned. -/
structure SourceGenerator where
  source : GenSource
  t_min : ℤ
  t_max : ℤ
  interp : Option Interp
  ra_unit : Option String
  dec_unit : Option String
  flux_unit : Option String
  deriving DecidableEq

/-- The `SourceGenerator.__init__` constructor: stores the source and the
bounds and leaves `interp` unset (`None`). -/
def SourceGenerator.construct (source : GenSource) (t_min t_max : ℤ) :
    SourceGenerator :=
  { source := source, t_min := t_min, t_max := t_max, interp := none,
    ra_unit := none, dec_unit := none, flux_unit := none }

/-- The `init_interp` method.  The asynchronous collaborator call
`get_ephem_points` is modelled by the `fetch` argument: the list it
returned, or the error it raised.  The returned pair is the outcome
(`ok` or the Python exception propagating out of the method) together
with the instance state after the call, mirroring the order in which the
Python method assigns attributes:

- fixed source: assigns `ra_unit` and `dec_unit`, then reads
  `self.source.flux.unit` (an `AttributeError` when the flux is `None`),
  then installs the constant lambda;
- moving source: a fetch error propagates unchanged before any
  assignment; the array-filling loop runs next (before any unit
  assignment); with zero samples the loop never binds `ephem`, so the
  subsequent `ephem.position.ra.unit` read raises a `NameError`; the
  units are captured from the last sample; finally
  `make_interp_spline(x, y, k=1)` either raises (leaving `interp`
  unset) or is assigned to `self.interp`. -/
def init_interp (g : SourceGenerator)
    (fetch : Except PyError (List RegisteredMovingSource)) :
    Except PyError Unit × SourceGenerator :=
  match g.source with
  | .extragalactic src =>
      match src.flux with
      | none =>
          (.error (.attributeError "NoneType object has no attribute unit"),
            { g with ra_unit := some src.position.ra.unit,
                     dec_unit := some src.position.dec.unit })
      | some fl =>
          (.ok (), { g with
            ra_unit := some src.position.ra.unit,
            dec_unit := some src.position.dec.unit,
            flux_unit := some fl.unit,
            interp := some (.const src.position.ra.value src.position.dec.value
              fl.value) })
  | .solarSystem _ =>
      match fetch with
      | .error e => (.error e, g)
      | .ok ephems =>
          match buildKnots ephems with
          | .error e => (.error e, g)
          | .ok ks =>
              match ephems.getLast? with
              | none =>
                  (.error (.nameError "cannot access local variable ephem where it is not associated with a value"), g)
              | some lastE =>
                  match make_interp_spline ks with
                  | .error e =>
                      (.error e, { g with
                        ra_unit := some lastE.position.ra.unit,
                        dec_unit := some lastE.position.dec.unit,
                        flux_unit := some ((lastE.flux.map Quantity.unit).getD "") })
                  | .ok itp =>
                      (.ok (), { g with
                        ra_unit := some lastE.position.ra.unit,
                        dec_unit := some lastE.position.dec.unit,
                        flux_unit := some ((lastE.flux.map Quantity.unit).getD ""),
                        interp := some itp })

/-- One entry of the class-level `lru_cache` hanging off `at_time`:
keyed by the bound instance (its identity `gid`) and the argument `t`,
holding the returned `(position, flux)` pair. -/
structure CacheEntry where
  gid : ℕ
  t : ℤ
  result : ICRS × Quantity
  deriving DecidableEq

/-- The capacity of the cache: `lru_cache(maxsize=128)`. -/
def lruMaxsize : ℕ := 128

/-- Cache lookup: the first (most recently used) entry with the given
key, when present. -/
def cacheLookup (c : List CacheEntry) (gid : ℕ) (t : ℤ) :
    Option (ICRS × Quantity) :=
  (c.find? fun e => e.gid == gid && e.t == t).map CacheEntry.result

/-- Promote an entry to most recently used on a cache hit. -/
def cacheTouch (c : List CacheEntry) (gid : ℕ) (t : ℤ) : List CacheEntry :=
  match c.find? (fun e => e.gid == gid && e.t == t) with
  | none => c
  | some e => e :: c.filter (fun x => !(x.gid == gid && x.t == t))

/-- Insert a fresh entry as most recently used, evicting the least
recently used entry when the capacity is exceeded. -/
def cacheInsert (c : List CacheEntry) (e : CacheEntry) : List CacheEntry :=
  (e :: c).take lruMaxsize

/-- The `at_time` method, with the `lru_cache(maxsize=128)` decorator
made explicit.  The wrapped cache is consulted first; on a miss the
method body runs: it raises a `RuntimeError` when `interp` is unset,
then a `ValueError` when `t` lies outside the closed bounds, and
otherwise evaluates the interpolation function at `t`, re-attaches the
captured units, caches and returns the `(position, flux)` pair.  The
third component reports whether the underlying interpolation function
was invoked by this call. -/
def at_time (g : SourceGenerator) (gid : ℕ) (c : List CacheEntry) (t : ℤ) :
    Except PyError (ICRS × Quantity) × List CacheEntry × Bool :=
  match cacheLookup c gid t with
  | some r => (.ok r, cacheTouch c gid t, false)
  | none =>
      match g.interp with
      | none =>
          (.error (.runtimeError "Error: interp must be initialized first. Have you run init_interp?"),
            c, false)
      | some itp =>
          if t < g.t_min ∨ g.t_max < t then
            (.error (.valueError ("Error, requested t=" ++ toString t
              ++ " outside initialized bounds " ++ toString g.t_min ++ "-"
              ++ toString g.t_max)), c, false)
          else
            let v := itp.eval t
            let position : ICRS :=
              ⟨⟨v.1, g.ra_unit.getD ""⟩, ⟨v.2.1, g.dec_unit.getD ""⟩⟩
            let fluxQ : Quantity := ⟨v.2.2, g.flux_unit.getD ""⟩
            (.ok (position, fluxQ),
              cacheInsert c ⟨gid, t, (position, fluxQ)⟩, true)

/-- Issue a sequence of `at_time` calls on one instance, threading the
shared cache through (the results themselves are discarded). -/
def runQueries (g : SourceGenerator) (gid : ℕ) (c : List CacheEntry)
    (ts : List ℤ) : List CacheEntry :=
  ts.foldl (fun acc t => (at_time g gid acc t).2.1) c

/-! ### Concrete fixtures -/

/-- The moving object of the specification's example scenario. -/
def exampleSSO : SolarSystemObject := ⟨1, some 511, "Davida"⟩

/-- A stored row of the example scenario. -/
def exampleRow (eid t : ℤ) (r d f : ℚ) : RegisteredMovingSourceTable :=
  { ephem_id := eid, sso_id := 1, MPC_id := some 511, name := "Davida",
    time := t, ra_deg := r, dec_deg := d, flux_mJy := some f }

/-- The ten stored rows of the example scenario: row `i` carries time
`12345600 + 100 i`, `ra = i`, `dec = 1.5 i` and `flux = 1.2 i + 0.1`
(the rational magnitudes written out literally). -/
def exampleTable : List RegisteredMovingSourceTable :=
  [exampleRow 0 12345600 0 0 (1/10),
   exampleRow 1 12345700 1 (3/2) (13/10),
   exampleRow 2 12345800 2 3 (5/2),
   exampleRow 3 12345900 3 (9/2) (37/10),
   exampleRow 4 12346000 4 6 (49/10),
   exampleRow 5 12346100 5 (15/2) (61/10),
   exampleRow 6 12346200 6 9 (73/10),
   exampleRow 7 12346300 7 (21/2) (17/2),
   exampleRow 8 12346400 8 12 (97/10),
   exampleRow 9 12346500 9 (27/2) (109/10)]

/-- The sample of the example scenario at time 12345700 (`i = 1`). -/
def exampleS1 : RegisteredMovingSource :=
  { ephem_id := 1, sso_id := 1, MPC_id := some 511, name := "Davida",
    time := 12345700, position := ⟨⟨1, "deg"⟩, ⟨3/2, "deg"⟩⟩,
    flux := some ⟨13/10, "mJy"⟩ }

/-- The sample of the example scenario at time 12345800 (`i = 2`). -/
def exampleS2 : RegisteredMovingSource :=
  { ephem_id := 2, sso_id := 1, MPC_id := some 511, name := "Davida",
    time := 12345800, position := ⟨⟨2, "deg"⟩, ⟨3, "deg"⟩⟩,
    flux := some ⟨5/2, "mJy"⟩ }

/-- The sample of the example scenario at time 12345900 (`i = 3`). -/
def exampleS3 : RegisteredMovingSource :=
  { ephem_id := 3, sso_id := 1, MPC_id := some 511, name := "Davida",
    time := 12345900, position := ⟨⟨3, "deg"⟩, ⟨9/2, "deg"⟩⟩,
    flux := some ⟨37/10, "mJy"⟩ }

/-- The generator of the example scenario: window `[12345700, 12345900]`,
initialized from the samples the ephemeris query returned. -/
def exampleGen : SourceGenerator :=
  (init_interp
    (SourceGenerator.construct (.solarSystem exampleSSO) 12345700 12345900)
    (.ok (get_ephem_points exampleTable exampleSSO 12345700 12345900))).2

/-- The fixed source of the specification's example scenario:
position (1 deg, 1 deg), flux 1.5 mJy. -/
def exampleFixedSource : ExtragalacticSource :=
  { id := none, position := ⟨⟨1, "deg"⟩, ⟨1, "deg"⟩⟩,
    flux := some ⟨3/2, "mJy"⟩, name := some "mySrc" }

/-- Instance A: the fixed example source over `[0, 1000]`, initialized. -/
def genA : SourceGenerator :=
  (init_interp
    (SourceGenerator.construct (.extragalactic exampleFixedSource) 0 1000)
    (.ok [])).2

/-- Instance B: a second, distinct initialized instance. -/
def genB : SourceGenerator :=
  (init_interp
    (SourceGenerator.construct (.extragalactic exampleFixedSource) 0 1000)
    (.ok [])).2

/-- The (position, flux) pair instance A returns for in-range queries. -/
def resA : ICRS × Quantity := (⟨⟨1, "deg"⟩, ⟨1, "deg"⟩⟩, ⟨3/2, "mJy"⟩)

/-- The cache after instance A's query at `t = 5` on an empty cache. -/
def cacheA1 : List CacheEntry := [⟨0, 5, resA⟩]

/-- An uninitialized generator (constructed, `init_interp` never run). -/
def genU : SourceGenerator :=
  SourceGenerator.construct (.extragalactic exampleFixedSource) 0 1000

/-- A moving identity for the insufficient-samples and unsorted-store
scenarios. -/
def ssoCex : SolarSystemObject := ⟨7, none, "Hygiea"⟩

/-- A lone ephemeris sample at time 50. -/
def oneSample : RegisteredMovingSource :=
  { ephem_id := 1, sso_id := 7, MPC_id := none, name := "Hygiea", time := 50,
    position := ⟨⟨1, "deg"⟩, ⟨1, "deg"⟩⟩, flux := some ⟨1, "mJy"⟩ }

/-- A stored row at time 5, inserted before the row at time 3. -/
def rowLate : RegisteredMovingSourceTable :=
  { ephem_id := 1, sso_id := 7, MPC_id := none, name := "Hygiea", time := 5,
    ra_deg := 10, dec_deg := 20, flux_mJy := some 1 }

/-- A stored row at time 3, inserted after the row at time 5. -/
def rowEarly : RegisteredMovingSourceTable :=
  { ephem_id := 2, sso_id := 7, MPC_id := none, name := "Hygiea", time := 3,
    ra_deg := 11, dec_deg := 21, flux_mJy := some 2 }

/-- A freshly constructed generator for the moving identity over
`[0, 100]`. -/
def genM0 : SourceGenerator :=
  SourceGenerator.construct (.solarSystem ssoCex) 0 100

/-! ### Cache lemmas -/

/-- Filtering by a predicate implied by the search predicate does not
change the result of `find?`. -/
theorem find?_filter_of_imp {α : Type} (p q : α → Bool) (l : List α)
    (h : ∀ x, p x = true → q x = true) :
    (l.filter q).find? p = l.find? p := by
  induction l with
  | nil => rfl
  | cons a l ih =>
      by_cases hq : q a = true
      · rw [List.filter_cons_of_pos hq]
        by_cases hp : p a = true
        · rw [List.find?_cons_of_pos _ hp, List.find?_cons_of_pos _ hp]
        · rw [List.find?_cons_of_neg _ (by simpa using hp),
            List.find?_cons_of_neg _ (by simpa using hp)]
          exact ih
      · rw [List.filter_cons_of_neg (by simpa using hq)]
        have hp : ¬ p a = true := fun hpa => hq (h a hpa)
        rw [List.find?_cons_of_neg _ (by simpa using hp)]
        exact ih

/-- Taking a prefix of a list either preserves the result of `find?` or
drops it entirely. -/
theorem find?_take_or_none {α : Type} (p : α → Bool) (l : List α) (a : α)
    (h : l.find? p = some a) :
    ∀ n : ℕ, (l.take n).find? p = some a ∨ (l.take n).find? p = none := by
  induction l with
  | nil => simp at h
  | cons x l ih =>
      intro n
      cases n with
      | zero => right; rfl
      | succ m =>
          rw [List.take_succ_cons]
          by_cases hp : p x = true
          · left
            rw [List.find?_cons_of_pos _ hp] at h ⊢
            exact h
          · rw [List.find?_cons_of_neg _ (by simpa using hp)] at h ⊢
            exact ih h m

/-- A cache hit survives the most-recently-used promotion with the same
value. -/
theorem cacheLookup_touch_self (c : List CacheEntry) (gid : ℕ) (t : ℤ)
    (r : ICRS × Quantity) (h : cacheLookup c gid t = some r) :
    cacheLookup (cacheTouch c gid t) gid t = some r := by
  unfold cacheLookup at h
  obtain ⟨e, he, hr⟩ : ∃ e, c.find? (fun e => e.gid == gid && e.t == t) = some e
      ∧ e.result = r := by
    cases hfind : c.find? (fun e => e.gid == gid && e.t == t) with
    | none => rw [hfind] at h; simp at h
    | some e => rw [hfind] at h; exact ⟨e, rfl, by simpa using h⟩
  have hpe := List.find?_some he
  unfold cacheTouch cacheLookup
  rw [he]
  show Option.map CacheEntry.result
      (List.find? (fun x => x.gid == gid && x.t == t)
        (e :: List.filter (fun x => !(x.gid == gid && x.t == t)) c)) = some r
  simp only [List.find?, hpe]
  simpa using hr

/-- Looking up a freshly inserted entry returns its value. -/
theorem cacheLookup_insert_self (c : List CacheEntry) (gid : ℕ) (t : ℤ)
    (r : ICRS × Quantity) :
    cacheLookup (cacheInsert c ⟨gid, t, r⟩) gid t = some r := by
  unfold cacheLookup cacheInsert lruMaxsize
  rw [show (128 : ℕ) = 127 + 1 from rfl, List.take_succ_cons,
    List.find?_cons_of_pos _ (by simp)]
  rfl

/-! ### Piecewise-linear evaluation lemmas -/

/-- The interpolant through two knots passes through the left knot. -/
theorem lerpKnots_left (p q : Knot) : lerpKnots p q p.time = (p.ra, p.dec, p.flux) := by
  unfold lerpKnots
  simp

/-- The interpolant through two knots passes through the right knot. -/
theorem lerpKnots_right (p q : Knot) (h : p.time < q.time) :
    lerpKnots p q q.time = (q.ra, q.dec, q.flux) := by
  have hlt : ((p.time : ℚ)) < ((q.time : ℚ)) := by exact_mod_cast h
  have hne : ((q.time : ℚ) - (p.time : ℚ)) ≠ 0 := sub_ne_zero.mpr (ne_of_gt hlt)
  unfold lerpKnots
  rw [div_self hne]
  simp only [Prod.mk.injEq]
  refine ⟨by ring, by ring, by ring⟩

/-- Bracketing lemma for the degree-1 spline: on a strictly
time-increasing knot list, every query time lying between a consecutive
pair of knots evaluates to the linear interpolation between exactly that
pair. -/
theorem evalLinear_bracket (kpre : List Knot) (p q : Knot) (kpost : List Knot)
    (t : ℤ)
    (hsort : List.Pairwise (fun a b : Knot => a.time < b.time)
      (kpre ++ p :: q :: kpost))
    (hpt : p.time ≤ t) (htq : t ≤ q.time) :
    evalLinear (kpre ++ p :: q :: kpost) t = lerpKnots p q t := by
  induction kpre with
  | nil =>
      simp only [List.nil_append, evalLinear]
      rw [if_pos (Or.inl htq)]
  | cons a kpre ih =>
      have hsort2 := (List.pairwise_cons.mp hsort).2
      have harel := (List.pairwise_cons.mp hsort).1
      cases kpre with
      | nil =>
          simp only [List.nil_append] at hsort2 ih ⊢
          simp only [List.cons_append, List.nil_append, evalLinear]
          by_cases ht : t ≤ p.time ∨ q :: kpost = []
          · rw [if_pos ht]
            have htp : t = p.time :=
              le_antisymm (ht.resolve_right (by simp)) hpt
            have hap : a.time < p.time := harel p (by simp)
            subst htp
            rw [lerpKnots_right a p hap, lerpKnots_left p q]
          · rw [if_neg ht]
            exact ih hsort2
      | cons b kpre =>
          simp only [List.cons_append, List.append_eq, evalLinear]
          have hbp : b.time < p.time :=
            (List.pairwise_cons.mp hsort2).1 p (by simp)
          have hguard : ¬(t ≤ b.time ∨ kpre ++ p :: q :: kpost = []) := by
            push_neg
            exact ⟨not_le.mp fun hc => absurd (lt_of_lt_of_le hbp hpt)
              (not_lt.mpr hc), by simp⟩
          rw [if_neg hguard]
          simpa only [List.cons_append, List.append_eq] using ih hsort2

/-! ### Inversion lemmas for initialization -/

/-- A successful run of the array-filling loop produces exactly the
knots of the samples, in order. -/
theorem buildKnots_ok (l : List RegisteredMovingSource) (ks : List Knot)
    (h : buildKnots l = .ok ks) : ks = l.map knotOf := by
  induction l generalizing ks with
  | nil =>
      unfold buildKnots at h
      simpa using (Except.ok.inj h).symm
  | cons e l ih =>
      unfold buildKnots at h
      cases hf : e.flux with
      | none => rw [hf] at h; exact absurd h (by simp)
      | some f =>
          rw [hf] at h
          cases hrest : buildKnots l with
          | error e2 => rw [hrest] at h; simp [Except.map] at h
          | ok ks2 =>
              rw [hrest] at h
              simp only [Except.map] at h
              rw [← Except.ok.inj h, List.map_cons, ih ks2 hrest]

/-- Inversion of a successful spline construction. -/
theorem make_interp_spline_ok (ks : List Knot) (itp : Interp)
    (h : make_interp_spline ks = .ok itp) :
    itp = .linear ks ∧ 2 ≤ ks.length ∧
      List.Pairwise (fun a b : Knot => a.time < b.time) ks := by
  unfold make_interp_spline at h
  split at h
  · exact absurd h (by simp)
  · split at h
    · next hlen hsort =>
        exact ⟨(Except.ok.inj h).symm, by omega, hsort⟩
    · exact absurd h (by simp)

/-- Inversion of a successful `init_interp` on a moving source: the
instance ends up holding the degree-1 spline through the knots of the
fetched samples, which are at least two and strictly increasing in
time, with the bounds untouched. -/
theorem init_interp_moving_ok (sso : SolarSystemObject) (tmin tmax : ℤ)
    (ephems : List RegisteredMovingSource) (g2 : SourceGenerator)
    (h : init_interp (SourceGenerator.construct (.solarSystem sso) tmin tmax)
        (.ok ephems) = (.ok (), g2)) :
    2 ≤ ephems.length ∧
      List.Pairwise (fun a b : Knot => a.time < b.time) (ephems.map knotOf) ∧
      g2.interp = some (.linear (ephems.map knotOf)) ∧
      g2.t_min = tmin ∧ g2.t_max = tmax := by
  unfold init_interp SourceGenerator.construct at h
  simp only at h
  cases hbk : buildKnots ephems with
  | error e => rw [hbk] at h; simp at h
  | ok ks =>
      rw [hbk] at h
      dsimp only at h
      cases hlast : ephems.getLast? with
      | none => rw [hlast] at h; simp at h
      | some lastE =>
          rw [hlast] at h
          dsimp only at h
          cases hms : make_interp_spline ks with
          | error e => rw [hms] at h; simp at h
          | ok itp =>
              rw [hms] at h
              dsimp only at h
              obtain ⟨hitp, hlen, hsort⟩ := make_interp_spline_ok ks itp hms
              have hks := buildKnots_ok ephems ks hbk
              have hg2 : g2 = _ := (Prod.mk.injEq _ _ _ _ |>.mp h).2.symm
              subst hg2
              subst hks
              refine ⟨by simpa using hlen, hsort, ?_, rfl, rfl⟩
              simp [hitp]

/-- Evaluation of `at_time` on a cache miss for an initialized instance
at an in-range time: the interpolant is evaluated and the captured units
are re-attached. -/
theorem at_time_ok_eval (g : SourceGenerator) (gid : ℕ) (c : List CacheEntry)
    (t : ℤ) (itp : Interp)
    (hitp : g.interp = some itp) (hmiss : cacheLookup c gid t = none)
    (hlo : g.t_min ≤ t) (hhi : t ≤ g.t_max) :
    at_time g gid c t =
      (.ok (⟨⟨(itp.eval t).1, g.ra_unit.getD ""⟩,
            ⟨(itp.eval t).2.1, g.dec_unit.getD ""⟩⟩,
        ⟨(itp.eval t).2.2, g.flux_unit.getD ""⟩),
       cacheInsert c ⟨gid, t,
        (⟨⟨(itp.eval t).1, g.ra_unit.getD ""⟩,
          ⟨(itp.eval t).2.1, g.dec_unit.getD ""⟩⟩,
         ⟨(itp.eval t).2.2, g.flux_unit.getD ""⟩)⟩,
       true) := by
  have hrange : ¬(t < g.t_min ∨ g.t_max < t) := by
    push_neg
    exact ⟨hlo, hhi⟩
  unfold at_time
  rw [hmiss, hitp]
  simp only [hrange, if_false, if_neg hrange]

/-- A failing `init_interp` leaves the `interp` attribute exactly as it
was (in particular unset on a freshly constructed instance). -/
theorem init_interp_error_state (g : SourceGenerator)
    (fetch : Except PyError (List RegisteredMovingSource)) (e2 : PyError)
    (g2 : SourceGenerator) (h : init_interp g fetch = (.error e2, g2)) :
    g2.interp = g.interp := by
  unfold init_interp at h
  split at h
  · split at h
    · simp only [Prod.mk.injEq] at h
      rw [← h.2]
    · simp at h
  · split at h
    · simp only [Prod.mk.injEq] at h
      rw [← h.2]
    · split at h
      · simp only [Prod.mk.injEq] at h
        rw [← h.2]
      · split at h
        · simp only [Prod.mk.injEq] at h
          rw [← h.2]
        · split at h
          · simp only [Prod.mk.injEq] at h
            rw [← h.2]
          · simp at h

/-- A successful `init_interp` always installs an interpolation
function. -/
theorem init_interp_ok_state (g : SourceGenerator)
    (fetch : Except PyError (List RegisteredMovingSource))
    (g2 : SourceGenerator) (h : init_interp g fetch = (.ok (), g2)) :
    g2.interp.isSome = true := by
  unfold init_interp at h
  split at h
  · split at h
    · simp at h
    · simp only [Prod.mk.injEq] at h
      rw [← h.2]
      rfl
  · split at h
    · simp at h
    · split at h
      · simp at h
      · split at h
        · simp at h
        · split at h
          · simp at h
          · simp only [Prod.mk.injEq] at h
            rw [← h.2]
            rfl

/-! ### Claim theorems -/

/-- C3: for a fixed (extragalactic) source, after `init_interp`, for
every time `t` with `t_min <= t <= t_max`, `at_time(t)` returns exactly
the source's stored position and flux, unchanged and carrying the
source's original units, independent of the value of `t`. -/
theorem at_time_fixed_returns_stored (src : ExtragalacticSource)
    (fl : Quantity) (tmin tmax t : ℤ) (g2 : SourceGenerator) (gid : ℕ)
    (c : List CacheEntry)
    (fetch : Except PyError (List RegisteredMovingSource))
    (hfl : src.flux = some fl)
    (hinit : init_interp
      (SourceGenerator.construct (.extragalactic src) tmin tmax) fetch
      = (.ok (), g2))
    (hmiss : cacheLookup c gid t = none)
    (hlo : tmin ≤ t) (hhi : t ≤ tmax) :
    (at_time g2 gid c t).1 = .ok (src.position, fl) := by
  unfold init_interp SourceGenerator.construct at hinit
  simp only [hfl] at hinit
  have hg2 := (Prod.mk.injEq _ _ _ _ |>.mp hinit).2
  subst hg2
  rw [at_time_ok_eval _ gid c t _ rfl hmiss hlo hhi]
  rfl

/-- C4: on a fresh query, `at_time` checks its preconditions in order:
an uninitialized instance raises the `RuntimeError`-class message
regardless of `t`; an initialized instance raises the
`ValueError`-class message reporting the offending `t` and the
configured bounds exactly when `t` lies strictly outside them; querying
any `t` with `t_min <= t <= t_max` (bounds inclusive) succeeds, and
`at_time` raises for no other reason. -/
theorem at_time_precondition_order (g : SourceGenerator) (gid : ℕ)
    (c : List CacheEntry) (t : ℤ)
    (hmiss : cacheLookup c gid t = none) :
    (g.interp = none →
      (at_time g gid c t).1 = .error (.runtimeError
        "Error: interp must be initialized first. Have you run init_interp?")) ∧
    (∀ i, g.interp = some i → (t < g.t_min ∨ g.t_max < t) →
      (at_time g gid c t).1 = .error (.valueError
        ("Error, requested t=" ++ toString t ++ " outside initialized bounds "
          ++ toString g.t_min ++ "-" ++ toString g.t_max))) ∧
    (∀ i, g.interp = some i → g.t_min ≤ t → t ≤ g.t_max →
      ∃ r, (at_time g gid c t).1 = .ok r) := by
  refine ⟨?_, ?_, ?_⟩
  · intro hnone
    unfold at_time
    rw [hmiss, hnone]
  · intro i hi hout
    unfold at_time
    rw [hmiss, hi]
    simp only [if_pos hout]
  · intro i hi hlo hhi
    exact ⟨_, by rw [at_time_ok_eval g gid c t i hi hmiss hlo hhi]⟩

/-- C5: a successful `at_time` call is memoized: calling again with the
identical `t` on the same instance returns the bit-identical result
from the cache, without re-invoking the underlying interpolation
function (the invocation flag of the second call is `false`). -/
theorem at_time_repeat_cached (g : SourceGenerator) (gid : ℕ)
    (c : List CacheEntry) (t : ℤ) (r : ICRS × Quantity)
    (c1 : List CacheEntry) (b1 : Bool)
    (h : at_time g gid c t = (.ok r, c1, b1)) :
    at_time g gid c1 t = (.ok r, cacheTouch c1 gid t, false) := by
  have hc1 : cacheLookup c1 gid t = some r := by
    unfold at_time at h
    cases hl : cacheLookup c gid t with
    | some r0 =>
        rw [hl] at h
        dsimp only at h
        simp only [Prod.mk.injEq, Except.ok.injEq] at h
        rw [← h.2.1]
        rw [h.1] at hl
        exact cacheLookup_touch_self c gid t r hl
    | none =>
        rw [hl] at h
        dsimp only at h
        cases hi : g.interp with
        | none => rw [hi] at h; simp at h
        | some itp =>
            rw [hi] at h
            dsimp only at h
            split at h
            · simp at h
            · simp only [Prod.mk.injEq, Except.ok.injEq] at h
              rw [← h.2.1, ← h.1]
              exact cacheLookup_insert_self c gid t _
  unfold at_time
  rw [hc1]

/-- C8: `init_interp` is atomic on a freshly constructed instance: an
error raised by the `get_ephem_points` collaborator propagates to the
caller unchanged with the whole instance state untouched; any failing
`init_interp` leaves `interp` unset, so subsequent `at_time` calls
still raise the uninitialized `RuntimeError`; a successful
`init_interp` leaves the instance ready (interpolation function
installed). -/
theorem init_interp_atomic (g : SourceGenerator) (hun : g.interp = none) :
    (∀ s e, g.source = GenSource.solarSystem s →
      init_interp g (Except.error e) = (Except.error e, g)) ∧
    (∀ fetch e2 g2, init_interp g fetch = (Except.error e2, g2) →
      g2.interp = none ∧ ∀ gid c t, cacheLookup c gid t = none →
        (at_time g2 gid c t).1 = Except.error (PyError.runtimeError
          "Error: interp must be initialized first. Have you run init_interp?")) ∧
    (∀ fetch g2, init_interp g fetch = (Except.ok (), g2) →
      g2.interp.isSome = true) := by
  refine ⟨?_, ?_, ?_⟩
  · intro s e hs
    unfold init_interp
    rw [hs]
  · intro fetch e2 g2 h
    have h2 : g2.interp = none := by
      rw [init_interp_error_state g fetch e2 g2 h]
      exact hun
    refine ⟨h2, ?_⟩
    intro gid c t hmiss
    unfold at_time
    rw [hmiss, h2]
  · intro fetch g2 h
    exact init_interp_ok_state g fetch g2 h

/-- C10: a failing `at_time` call is never memoized: it leaves the
cache (the only state the method mutates) unchanged and does not invoke
the interpolation function, so a later call with the same `t` against
the same cache — for example after `init_interp` has completed on the
instance — is evaluated afresh and returns the computed result. -/
theorem at_time_error_not_cached (g : SourceGenerator) (gid : ℕ)
    (c : List CacheEntry) (t : ℤ) (e : PyError) (c2 : List CacheEntry)
    (b2 : Bool) (h : at_time g gid c t = (.error e, c2, b2)) :
    c2 = c ∧ b2 = false ∧
      ∀ g2 i, g2.interp = some i → g2.t_min ≤ t → t ≤ g2.t_max →
        ∃ pos fl, at_time g2 gid c t =
          (.ok (pos, fl), cacheInsert c ⟨gid, t, (pos, fl)⟩, true) := by
  have hmiss : cacheLookup c gid t = none := by
    cases hl : cacheLookup c gid t with
    | none => rfl
    | some r =>
        unfold at_time at h
        rw [hl] at h
        simp at h
  have hcb : c2 = c ∧ b2 = false := by
    unfold at_time at h
    rw [hmiss] at h
    dsimp only at h
    cases hi : g.interp with
    | none =>
        rw [hi] at h
        dsimp only at h
        simp only [Prod.mk.injEq] at h
        exact ⟨h.2.1.symm, h.2.2.symm⟩
    | some itp =>
        rw [hi] at h
        dsimp only at h
        split at h
        · simp only [Prod.mk.injEq] at h
          exact ⟨h.2.1.symm, h.2.2.symm⟩
        · simp at h
  refine ⟨hcb.1, hcb.2, ?_⟩
  intro g2 i hi hlo hhi
  exact ⟨_, _, at_time_ok_eval g2 gid c t i hi hmiss hlo hhi⟩

/-- C1: for a moving source whose fetched window samples decompose as
`pre ++ p :: q :: post`, after a successful `init_interp` (which forces
the sample times to be strictly increasing), every integer query time
`t` with `p.time <= t <= q.time` inside the bounds returns ra, dec and
flux magnitudes equal to the linear interpolation between samples `p`
and `q` in each of the three channels. -/
theorem at_time_moving_linear (sso : SolarSystemObject) (tmin tmax : ℤ)
    (pre post : List RegisteredMovingSource) (p q : RegisteredMovingSource)
    (g2 : SourceGenerator) (gid : ℕ) (c : List CacheEntry) (t : ℤ)
    (hinit : init_interp
      (SourceGenerator.construct (.solarSystem sso) tmin tmax)
      (.ok (pre ++ p :: q :: post)) = (.ok (), g2))
    (hmiss : cacheLookup c gid t = none)
    (hpt : p.time ≤ t) (htq : t ≤ q.time)
    (hlo : tmin ≤ t) (hhi : t ≤ tmax) :
    ∃ pos fl, (at_time g2 gid c t).1 = .ok (pos, fl) ∧
      pos.ra.value = p.position.ra.value +
        (((t : ℚ) - (p.time : ℚ)) / ((q.time : ℚ) - (p.time : ℚ))) *
          (q.position.ra.value - p.position.ra.value) ∧
      pos.dec.value = p.position.dec.value +
        (((t : ℚ) - (p.time : ℚ)) / ((q.time : ℚ) - (p.time : ℚ))) *
          (q.position.dec.value - p.position.dec.value) ∧
      fl.value = fluxVal p +
        (((t : ℚ) - (p.time : ℚ)) / ((q.time : ℚ) - (p.time : ℚ))) *
          (fluxVal q - fluxVal p) := by
  obtain ⟨hlen, hsort, hitp, htmin, htmax⟩ :=
    init_interp_moving_ok _ _ _ _ _ hinit
  rw [List.map_append, List.map_cons, List.map_cons] at hsort hitp
  rw [at_time_ok_eval g2 gid c t _ hitp hmiss (by rw [htmin]; exact hlo)
    (by rw [htmax]; exact hhi)]
  have hb := evalLinear_bracket (pre.map knotOf) (knotOf p) (knotOf q)
    (post.map knotOf) t hsort hpt htq
  refine ⟨_, _, rfl, ?_, ?_, ?_⟩ <;> simp only [Interp.eval, hb] <;> rfl

/-- C2: for a moving source, after a successful `init_interp`, querying
`at_time` at the exact timestamp of one of the stored samples returns
that sample's exact ra, dec and flux magnitudes: the interpolant passes
through its knots. -/
theorem at_time_at_sample_time (sso : SolarSystemObject) (tmin tmax : ℤ)
    (ephems : List RegisteredMovingSource) (s : RegisteredMovingSource)
    (g2 : SourceGenerator) (gid : ℕ) (c : List CacheEntry)
    (hinit : init_interp
      (SourceGenerator.construct (.solarSystem sso) tmin tmax)
      (.ok ephems) = (.ok (), g2))
    (hs : s ∈ ephems)
    (hmiss : cacheLookup c gid s.time = none)
    (hlo : tmin ≤ s.time) (hhi : s.time ≤ tmax) :
    ∃ pos fl, (at_time g2 gid c s.time).1 = .ok (pos, fl) ∧
      pos.ra.value = s.position.ra.value ∧
      pos.dec.value = s.position.dec.value ∧
      ∀ f, s.flux = some f → fl.value = f.value := by
  obtain ⟨hlen, hsort, hitp, htmin, htmax⟩ :=
    init_interp_moving_ok _ _ _ _ _ hinit
  rw [at_time_ok_eval g2 gid c s.time _ hitp hmiss (by rw [htmin]; exact hlo)
    (by rw [htmax]; exact hhi)]
  obtain ⟨l1, l2, hdec⟩ := List.append_of_mem hs
  subst hdec
  have hval : (evalLinear ((l1 ++ s :: l2).map knotOf) s.time)
      = (s.position.ra.value, s.position.dec.value, fluxVal s) := by
    cases l2 with
    | cons e2 l2 =>
        rw [List.map_append, List.map_cons, List.map_cons] at hsort ⊢
        have hse2 : (knotOf s).time < (knotOf e2).time := by
          have hp2 := (List.pairwise_append.mp hsort).2.1
          exact (List.pairwise_cons.mp hp2).1 (knotOf e2) (by simp)
        rw [evalLinear_bracket (l1.map knotOf) (knotOf s) (knotOf e2)
          (l2.map knotOf) s.time hsort le_rfl (le_of_lt hse2)]
        exact lerpKnots_left (knotOf s) (knotOf e2)
    | nil =>
        have hl1 : l1 ≠ [] := by
          intro hnil
          rw [hnil] at hlen
          simp at hlen
        obtain ⟨l0, a, hconc⟩ := (List.eq_nil_or_concat l1).resolve_left hl1
        subst hconc
        have hshape : l0.concat a ++ s :: [] = l0 ++ a :: s :: [] := by simp
        rw [hshape] at hsort ⊢
        rw [List.map_append, List.map_cons, List.map_cons] at hsort ⊢
        have has : (knotOf a).time < (knotOf s).time := by
          have hp2 := (List.pairwise_append.mp hsort).2.1
          exact (List.pairwise_cons.mp hp2).1 (knotOf s) (by simp)
        rw [evalLinear_bracket (l0.map knotOf) (knotOf a) (knotOf s)
          ([].map knotOf) s.time hsort (le_of_lt has) le_rfl]
        exact lerpKnots_right (knotOf a) (knotOf s) has
  refine ⟨_, _, rfl, ?_, ?_, ?_⟩
  · simp only [Interp.eval, hval]
  · simp only [Interp.eval, hval]
  · intro f hf
    simp only [Interp.eval, hval]
    simp [fluxVal, hf]

/-- The cache after any `at_time` call is either untouched, the
most-recently-used promotion for the caller's own key, or an insertion
of an entry carrying the caller's own instance identity. -/
theorem at_time_cache_shape (g : SourceGenerator) (gid : ℕ)
    (c : List CacheEntry) (t : ℤ) :
    (at_time g gid c t).2.1 = c ∨
      (at_time g gid c t).2.1 = cacheTouch c gid t ∨
      ∃ e : CacheEntry, e.gid = gid ∧
        (at_time g gid c t).2.1 = cacheInsert c e := by
  unfold at_time
  cases hl : cacheLookup c gid t with
  | some r0 => right; left; rfl
  | none =>
      cases hi : g.interp with
      | none => left; rfl
      | some itp =>
          by_cases hr : t < g.t_min ∨ g.t_max < t
          · left
            simp only [if_pos hr]
          · right; right
            refine ⟨⟨gid, t,
              (⟨⟨(itp.eval t).1, g.ra_unit.getD ""⟩,
                ⟨(itp.eval t).2.1, g.dec_unit.getD ""⟩⟩,
               ⟨(itp.eval t).2.2, g.flux_unit.getD ""⟩)⟩, rfl, ?_⟩
            dsimp only
            rw [if_neg hr]

/-- Promoting an entry of another instance does not change lookups for
this instance's keys. -/
theorem cacheLookup_touch_other (c : List CacheEntry) (gidA gidB : ℕ)
    (tA tB : ℤ) (hne : gidA ≠ gidB) :
    cacheLookup (cacheTouch c gidB tB) gidA tA = cacheLookup c gidA tA := by
  unfold cacheTouch
  cases hf : c.find? (fun e => e.gid == gidB && e.t == tB) with
  | none => rfl
  | some e =>
      have hpe := List.find?_some hf
      simp only [Bool.and_eq_true, beq_iff_eq] at hpe
      have hpa : (e.gid == gidA && e.t == tA) = false := by
        simp [hpe.1]
        exact fun h => absurd h.symm hne
      unfold cacheLookup
      simp only [List.find?, hpa]
      rw [find?_filter_of_imp]
      intro x hx
      simp only [Bool.and_eq_true, beq_iff_eq] at hx
      simp [hx.1, fun h : gidA = gidB => hne h]

/-- Inserting an entry of another instance either preserves a lookup
for this instance's key or evicts it, never changing its value. -/
theorem cacheLookup_insert_other (c : List CacheEntry) (e : CacheEntry)
    (gidA : ℕ) (tA : ℤ) (r : ICRS × Quantity)
    (hne : gidA ≠ e.gid) (hA : cacheLookup c gidA tA = some r) :
    cacheLookup (cacheInsert c e) gidA tA = some r ∨
      cacheLookup (cacheInsert c e) gidA tA = none := by
  obtain ⟨e0, he0, hr0⟩ : ∃ e0,
      c.find? (fun x => x.gid == gidA && x.t == tA) = some e0
        ∧ e0.result = r := by
    unfold cacheLookup at hA
    cases hfind : c.find? (fun x => x.gid == gidA && x.t == tA) with
    | none => rw [hfind] at hA; simp at hA
    | some e1 => rw [hfind] at hA; exact ⟨e1, rfl, by simpa using hA⟩
  have hpe : (e.gid == gidA && e.t == tA) = false := by
    simp
    exact fun h => absurd h.symm hne
  unfold cacheInsert cacheLookup lruMaxsize
  rw [show (128 : ℕ) = 127 + 1 from rfl, List.take_succ_cons]
  simp only [List.find?, hpe]
  rcases find?_take_or_none _ c e0 he0 127 with h | h
  · left
    rw [h]
    simpa using hr0
  · right
    rw [h]
    rfl

/-- C7 (amended): the cache key includes the querying instance, so a
query on instance B never installs or changes a value cached under a
key of a distinct instance A; at worst it evicts A's entry from the
shared bounded cache. -/
theorem at_time_other_instance_no_overwrite (gB : SourceGenerator)
    (gidA gidB : ℕ) (c : List CacheEntry) (tA tB : ℤ) (r : ICRS × Quantity)
    (hne : gidA ≠ gidB) (hA : cacheLookup c gidA tA = some r) :
    cacheLookup ((at_time gB gidB c tB).2.1) gidA tA = some r ∨
      cacheLookup ((at_time gB gidB c tB).2.1) gidA tA = none := by
  rcases at_time_cache_shape gB gidB c tB with hsh | hsh | ⟨e, hegid, hsh⟩
  · left
    rw [hsh]
    exact hA
  · left
    rw [hsh, cacheLookup_touch_other c gidA gidB tA tB hne]
    exact hA
  · rw [hsh]
    exact cacheLookup_insert_other c e gidA tA r
      (fun h => hne (h.trans hegid)) hA

set_option maxRecDepth 10000 in
/-- C7 counterexample: the `lru_cache` hanging off `at_time` is a single
class-level cache shared by all instances.  Instance A caches its result
at `t = 5`; 128 distinct queries by instance B then evict A's entry, so
A's repeated query at `t = 5` invokes its interpolation function again
instead of being served from the cache. -/
theorem at_time_shared_cache_eviction :
    (at_time genA 0 (runQueries genB 1 ((at_time genA 0 [] 5).2.1)
      ((List.range 128).map Int.ofNat)) 5).2.2 = true := by decide

/-- C6 (code evaluation): with fewer than two ephemeris samples in the
window, `init_interp` on a moving source does not raise a defined
insufficient-samples error: with zero samples it raises the `NameError`
of the unbound loop variable, and with one sample it raises the internal
scipy `ValueError` of the spline constructor. -/
theorem init_interp_insufficient_samples_opaque :
    (init_interp genM0 (.ok [])).1 = .error (.nameError
      "cannot access local variable ephem where it is not associated with a value") ∧
    (init_interp genM0 (.ok [oneSample])).1 = .error (.valueError
      "scipy: x array must contain at least 2 points for a spline of degree k=1") := by
  constructor <;> rfl

/-- C9 (amended): `get_ephem_points` returns exactly the stored samples
of the requested source whose time lies in the inclusive window (an
empty result is valid), presented in the store's own order (a sublist of
the stored table), which is not guaranteed to be ascending in time. -/
theorem get_ephem_points_exact (table : List RegisteredMovingSourceTable)
    (source : SolarSystemObject) (tmin tmax : ℤ) :
    (∀ m, m ∈ get_ephem_points table source tmin tmax ↔
      ∃ r, r ∈ table ∧ tmin ≤ r.time ∧ r.time ≤ tmax ∧
        source.sso_id = r.sso_id ∧ m = r.to_model) ∧
    List.Sublist (get_ephem_points table source tmin tmax)
      (table.map RegisteredMovingSourceTable.to_model) := by
  constructor
  · intro m
    unfold get_ephem_points
    simp only [List.mem_map, List.mem_filter, Bool.and_eq_true,
      decide_eq_true_eq]
    constructor
    · rintro ⟨r, ⟨hr, ⟨h1, h2⟩, h3⟩, rfl⟩
      exact ⟨r, hr, h1, h2, h3, rfl⟩
    · rintro ⟨r, hr, h1, h2, h3, rfl⟩
      exact ⟨r, ⟨hr, ⟨h1, h2⟩, h3⟩, rfl⟩
  · exact List.Sublist.map _ (List.filter_sublist _)

/-- C9 counterexample: with the row at time 5 stored before the row at
time 3, the query over the window `[0, 10]` returns the samples in
storage order — times `[5, 3]` — which is not ascending. -/
theorem get_ephem_points_unsorted :
    (get_ephem_points [rowLate, rowEarly] ssoCex 0 10).map
        (fun e => e.time) = [5, 3] ∧
    ¬ List.Pairwise (fun a b : RegisteredMovingSource => a.time ≤ b.time)
        (get_ephem_points [rowLate, rowEarly] ssoCex 0 10) := by
  constructor
  · rfl
  · decide

/-! ### Witnesses -/

/-- Witness for C1 at the specification's example scenario: the window
`[12345700, 12345900]` selects exactly the three samples at times
12345700, 12345800, 12345900, and the query at `t = 12345850` yields
`ra = 2.5`, `dec = 3.75`, `flux = 3.1`. -/
theorem at_time_moving_linear_witness :
    get_ephem_points exampleTable exampleSSO 12345700 12345900
        = [exampleS1, exampleS2, exampleS3] ∧
    ∃ pos fl, (at_time exampleGen 0 [] 12345850).1 = .ok (pos, fl) ∧
      pos.ra.value = 5/2 ∧ pos.dec.value = 15/4 ∧ fl.value = 31/10 := by
  refine ⟨by rfl, ?_⟩
  obtain ⟨pos, fl, h1, h2, h3, h4⟩ :=
    at_time_moving_linear exampleSSO 12345700 12345900 [exampleS1] []
      exampleS2 exampleS3 exampleGen 0 [] 12345850 (by rfl) rfl
      (by decide) (by decide) (by decide) (by decide)
  refine ⟨pos, fl, h1, ?_, ?_, ?_⟩
  · rw [h2]
    norm_num [exampleS2, exampleS3]
  · rw [h3]
    norm_num [exampleS2, exampleS3]
  · rw [h4]
    norm_num [exampleS2, exampleS3, fluxVal]

/-- Witness for C2: querying the example generator at the stored sample
time 12345800 returns exactly that sample's values. -/
theorem at_time_at_sample_time_witness :
    ∃ pos fl, (at_time exampleGen 0 [] exampleS2.time).1 = .ok (pos, fl) ∧
      pos.ra.value = exampleS2.position.ra.value ∧
      pos.dec.value = exampleS2.position.dec.value ∧
      ∀ f, exampleS2.flux = some f → fl.value = f.value :=
  at_time_at_sample_time exampleSSO 12345700 12345900
    [exampleS1, exampleS2, exampleS3] exampleS2 exampleGen 0 []
    (by rfl) (by simp) rfl (by decide) (by decide)

/-- Witness for C3: the fixed example source queried at `t = 234` in
`[0, 1000]` returns its stored position and flux exactly. -/
theorem at_time_fixed_returns_stored_witness :
    (at_time genA 0 [] 234).1
      = .ok (exampleFixedSource.position, ⟨3/2, "mJy"⟩) :=
  at_time_fixed_returns_stored exampleFixedSource ⟨3/2, "mJy"⟩ 0 1000 234
    genA 0 [] (.ok []) rfl (by rfl) rfl (by decide) (by decide)

/-- Witness for C4 on the initialized instance A at the in-range time
`t = 500`. -/
theorem at_time_precondition_order_witness :
    (genA.interp = none →
      (at_time genA 0 [] 500).1 = .error (.runtimeError
        "Error: interp must be initialized first. Have you run init_interp?")) ∧
    (∀ i, genA.interp = some i → ((500:ℤ) < genA.t_min ∨ genA.t_max < 500) →
      (at_time genA 0 [] 500).1 = .error (.valueError
        ("Error, requested t=" ++ toString (500:ℤ)
          ++ " outside initialized bounds " ++ toString genA.t_min ++ "-"
          ++ toString genA.t_max))) ∧
    (∀ i, genA.interp = some i → genA.t_min ≤ 500 → (500:ℤ) ≤ genA.t_max →
      ∃ r, (at_time genA 0 [] 500).1 = .ok r) :=
  at_time_precondition_order genA 0 [] 500 rfl

/-- Witness for C5: instance A's second query at `t = 5` is served from
the cache with the identical result and no interpolant invocation. -/
theorem at_time_repeat_cached_witness :
    at_time genA 0 cacheA1 5 = (.ok resA, cacheTouch cacheA1 0 5, false) :=
  at_time_repeat_cached genA 0 [] 5 resA cacheA1 true (by rfl)

/-- Witness for C7 (amended): instance B's query at `t = 7` leaves
instance A's cached value at `t = 5` either intact or evicted, never
altered. -/
theorem at_time_other_instance_no_overwrite_witness :
    cacheLookup ((at_time genB 1 cacheA1 7).2.1) 0 5 = some resA ∨
      cacheLookup ((at_time genB 1 cacheA1 7).2.1) 0 5 = none :=
  at_time_other_instance_no_overwrite genB 0 1 cacheA1 5 7 resA
    (by decide) (by rfl)

/-- Witness for C8 on a freshly constructed moving-source generator. -/
theorem init_interp_atomic_witness :
    (∀ s e, genM0.source = GenSource.solarSystem s →
      init_interp genM0 (Except.error e) = (Except.error e, genM0)) ∧
    (∀ fetch e2 g2, init_interp genM0 fetch = (Except.error e2, g2) →
      g2.interp = none ∧ ∀ gid c t, cacheLookup c gid t = none →
        (at_time g2 gid c t).1 = Except.error (PyError.runtimeError
          "Error: interp must be initialized first. Have you run init_interp?")) ∧
    (∀ fetch g2, init_interp genM0 fetch = (Except.ok (), g2) →
      g2.interp.isSome = true) :=
  init_interp_atomic genM0 rfl

/-- Witness for C10: the uninitialized instance's failing query at
`t = 5` leaves the empty cache empty and does not invoke the
interpolant; the same query against the same cache succeeds on any
initialized in-range instance. -/
theorem at_time_error_not_cached_witness :
    ([] : List CacheEntry) = [] ∧ false = false ∧
      ∀ g2 i, g2.interp = some i → g2.t_min ≤ 5 → (5:ℤ) ≤ g2.t_max →
        ∃ pos fl, at_time g2 0 [] 5 =
          (.ok (pos, fl), cacheInsert [] ⟨0, 5, (pos, fl)⟩, true) :=
  at_time_error_not_cached genU 0 [] 5 (.runtimeError
    "Error: interp must be initialized first. Have you run init_interp?")
    [] false (by rfl)

/-- Witness for C9 (amended) on the two-row store. -/
theorem get_ephem_points_exact_witness :
    (∀ m, m ∈ get_ephem_points [rowLate, rowEarly] ssoCex 0 10 ↔
      ∃ r, r ∈ [rowLate, rowEarly] ∧ (0:ℤ) ≤ r.time ∧ r.time ≤ 10 ∧
        ssoCex.sso_id = r.sso_id ∧ m = r.to_model) ∧
    List.Sublist (get_ephem_points [rowLate, rowEarly] ssoCex 0 10)
      ([rowLate, rowEarly].map RegisteredMovingSourceTable.to_model) :=
  get_ephem_points_exact [rowLate, rowEarly] ssoCex 0 10

end Socat
